import Mathlib

/-!
Shallow embedding of `src/main.py` (FastAPI telemedicine chatbot, CSV variant).

The module-level configuration, the startup CSV load, the `/chat` handler
(`handle_chat`) and the root endpoint (`read_root`) are translated into
executable Lean definitions.  The generative-AI provider is external: each
provider call is modelled by the raw text it returns, supplied as an
argument, and the handler result records how many provider calls were made.
Python strings are Lean `String`s; `str.strip` and `str.lower` are modelled
for the ASCII + Latin-1 range the data uses.
-/

set_option autoImplicit false

namespace Telemedicina

/-- Characters removed by Python `str.strip()` (the ASCII whitespace set:
space, tab, newline, carriage return, vertical tab, form feed). -/
def isPySpace (c : Char) : Bool :=
  c == ' ' || c == '\t' || c == '\n' || c == '\r' ||
    c == Char.ofNat 11 || c == Char.ofNat 12

/-- Python `str.strip()` on a list of characters: drop whitespace from both
ends. -/
def pyStripList (l : List Char) : List Char :=
  ((l.dropWhile isPySpace).reverse.dropWhile isPySpace).reverse

/-- Python `str.strip()`. -/
def pyStrip (s : String) : String :=
  String.mk (pyStripList s.data)

/-- Python `str.lower()` restricted to the ASCII and Latin-1 letters that
occur in the data: `A`-`Z` and `À`-`Þ` (except `×`) map down by 32 code
points, everything else is unchanged. -/
def pyLowerChar (c : Char) : Char :=
  if 65 ≤ c.toNat ∧ c.toNat ≤ 90 then Char.ofNat (c.toNat + 32)
  else if 192 ≤ c.toNat ∧ c.toNat ≤ 222 ∧ c.toNat ≠ 215 then Char.ofNat (c.toNat + 32)
  else c

/-- Python `str.lower()`. -/
def pyLower (s : String) : String :=
  String.mk (s.data.map pyLowerChar)

/-- Python exceptions that the embedded code can raise or catch. -/
inductive PyError where
  | fileNotFoundError (message : String)
  | attributeError (message : String)
  | otherError (message : String)
  deriving DecidableEq, Repr

/-- Python `str(e)`: the string form of an exception. -/
def PyError.message : PyError → String
  | .fileNotFoundError m => m
  | .attributeError m => m
  | .otherError m => m

/-- One row of `doctores.csv` as used by `handle_chat` (columns
`nombre_completo`, `especialidad`, `bio_corta`, the columns of the empty
fallback DataFrame at lines 48/51). -/
structure DoctorRecord where
  nombre_completo : String
  especialidad : String
  bio_corta : String
  deriving DecidableEq, Repr

/-- Startup load of `doctores.csv` (lines 41-51): the outcome of
`pd.read_csv` is the argument; on `FileNotFoundError` or any other
exception the code substitutes an empty DataFrame, so startup always
completes with a record list. -/
def df_doctores_startup (readResult : Except PyError (List DoctorRecord)) :
    List DoctorRecord :=
  match readResult with
  | .ok df => df
  | .error _ => []

/-- Evaluation of the attribute access `x.str` where `x` is a plain Python
`str` (line 102, right-hand side `especialidad.strip().str.lower()`):
plain strings have no `.str` accessor (that is a pandas `Series` method),
so this raises `AttributeError`. -/
def strAccessorOnStr (_s : String) : Except PyError String :=
  .error (.attributeError ("str object has no attribute str"))

/-- Lines 99-104, the retrieval step of `handle_chat`:
`if df_doctores.empty: lista = []` else
`resultados = df_doctores[df_doctores[especialidad].str.strip().str.lower()
== especialidad.strip().str.lower()]` followed by
`resultados.head(3).to_dict(records)`.  The left-hand side of the
comparison normalizes the stored column; the right-hand side first strips
the query label and then hits the `.str` attribute access, which raises. -/
def filtrarDoctores (df : List DoctorRecord) (especialidad : String) :
    Except PyError (List DoctorRecord) :=
  if df.isEmpty then .ok []
  else
    let lhs := fun d => pyLower (pyStrip d.especialidad)
    match strAccessorOnStr (pyStrip especialidad) with
    | .error e => .error e
    | .ok rhs => .ok ((df.filter (fun d => lhs d == rhs)).take 3)

/-- Sentinel directory text of line 106. -/
def sinDoctoresTexto : String :=
  "No se encontraron doctores para esta especialidad."

/-- One line of the directory context, line 110:
`- {nombre_completo} ({especialidad}): {bio_corta}`. -/
def lineaDoctor (d : DoctorRecord) : String :=
  "- " ++ d.nombre_completo ++ " (" ++ d.especialidad ++ "): " ++
    d.bio_corta ++ "\n"

/-- Lines 106-110: `contexto_doctores` starts as the sentinel and is
replaced by the formatted record list only when the filtered list is
non-empty (Python list truthiness). -/
def contextoDoctores (lista_doctores_filtrados : List DoctorRecord) : String :=
  if lista_doctores_filtrados.isEmpty then sinDoctoresTexto
  else "Doctores disponibles encontrados:\n" ++
    String.join (lista_doctores_filtrados.map lineaDoctor)

/-- Decoding parameters of line 36:
`{"temperature": 0.7, "top_p": 1, "top_k": 1, "max_output_tokens": 2048}`. -/
structure GenerationConfig where
  temperature : ℚ
  top_p : ℚ
  top_k : ℕ
  max_output_tokens : ℕ
  deriving DecidableEq, Repr

/-- One entry of a `safety_settings` argument of the provider SDK: a harm
category paired with a block threshold. -/
structure SafetySetting where
  category : String
  threshold : String
  deriving DecidableEq, Repr

/-- Configuration of a `genai.GenerativeModel`: model name, generation
config, and the safety settings passed to the constructor. -/
structure GenerativeModelConfig where
  model_name : String
  generation_config : GenerationConfig
  safety_settings : List SafetySetting
  deriving DecidableEq, Repr

/-- Line 36. -/
def generation_config : GenerationConfig :=
  { temperature := 7/10, top_p := 1, top_k := 1, max_output_tokens := 2048 }

/-- Line 37: `genai.GenerativeModel(model_name="gemini-2.5-flash",
generation_config=generation_config)` — no `safety_settings` argument is
passed anywhere in the file, so the constructed model carries none and the
provider defaults apply to both calls of `handle_chat`. -/
def model : GenerativeModelConfig :=
  { model_name := "gemini-2.5-flash"
    generation_config := generation_config
    safety_settings := [] }

/-- The four harm categories of the provider SDK over which a permissive
configuration would have to set a threshold. -/
def harmCategories : List String :=
  ["HARM_CATEGORY_HARASSMENT", "HARM_CATEGORY_HATE_SPEECH",
   "HARM_CATEGORY_SEXUALLY_EXPLICIT", "HARM_CATEGORY_DANGEROUS_CONTENT"]

/-- The property the spec asserts of the model configuration: content-safety
filtering set to the most permissive threshold (`BLOCK_NONE`) in every harm
category. -/
def mostPermissiveSafety (m : GenerativeModelConfig) : Prop :=
  ∀ c ∈ harmCategories,
    ({ category := c, threshold := "BLOCK_NONE" } : SafetySetting) ∈ m.safety_settings

/-- Lines 76-78: the request body model.  Both fields are declared without
defaults, and no other field exists. -/
structure ChatInput where
  user_id : String
  mensaje : String
  deriving DecidableEq, Repr

/-- Pydantic validation of a request body against `ChatInput` (lines
76-78): a field declared without a default is required, so a body missing
`user_id` or `mensaje` is rejected; there is no prior-medical-context
field to populate. -/
def ChatInput.validate (user_id mensaje : Option String) :
    Except String ChatInput :=
  match user_id, mensaje with
  | some u, some m => .ok { user_id := u, mensaje := m }
  | none, _ => .error ("field required: user_id")
  | _, none => .error ("field required: mensaje")

/-- Line 80: the response body model. -/
structure ChatOutput where
  respuesta_bot : String
  deriving DecidableEq, Repr

/-- Outcome of one `/chat` request as seen by the HTTP caller: either a
200 with a `ChatOutput` body, or the `HTTPException` of line 131. -/
inductive ChatResult where
  | success (body : ChatOutput)
  | httpException (status_code : ℕ) (detail : String)
  deriving DecidableEq, Repr

/-- Line 94: the fixed non-medical-topic reply. -/
def respuestaNoMedica : String :=
  "Lo siento, mi función es solo ayudarte con consultas de salud. ¿Tienes algún síntoma del que quieras hablarme?"

/-- Line 131: the detail string of the generic 500. -/
def detalleErrorGenerico : String :=
  "Ocurrió un error al procesar tu solicitud."

/-- Process-wide state: the directory snapshot `df_doctores` written once
at startup (lines 41-51) and read by every request. -/
structure ServerState where
  df_doctores : List DoctorRecord
  deriving DecidableEq, Repr

/-- Everything observable about one run of `handle_chat`: the HTTP result,
how many provider calls were made (`generate_content_async` at lines 89 and
125), whether the directory retrieval block of lines 99-104 was evaluated,
and the `contexto_doctores` text interpolated into the generation prompt of
lines 113-123 (`none` when that prompt is never built). -/
structure ChatOutcome where
  result : ChatResult
  aiCalls : ℕ
  lookupInvoked : Bool
  contexto : Option String
  deriving DecidableEq, Repr

/-- Lines 85-131, `handle_chat`.  `r1` is the text of the first provider
call (specialty extraction, line 89) and `r2` the text of the second
(generation, line 125); the provider is external and modelled by these
arguments.  The body threads the process state explicitly: no branch
writes `df_doctores`.  The only exception source inside the `try` block is
the retrieval expression (see `filtrarDoctores`); the `except` of lines
129-131 converts it to the generic 500. -/
def handle_chat (s : ServerState) (_input : ChatInput) (r1 r2 : String) :
    ChatOutcome × ServerState :=
  let especialidad := pyStrip r1
  if especialidad = "N/A" then
    ({ result := .success { respuesta_bot := respuestaNoMedica }
       aiCalls := 1, lookupInvoked := false, contexto := none }, s)
  else
    match filtrarDoctores s.df_doctores especialidad with
    | .error _ =>
      ({ result := .httpException 500 detalleErrorGenerico
         aiCalls := 1, lookupInvoked := true, contexto := none }, s)
    | .ok lista_doctores_filtrados =>
      let contexto_doctores := contextoDoctores lista_doctores_filtrados
      ({ result := .success { respuesta_bot := pyStrip r2 }
         aiCalls := 2, lookupInvoked := true
         contexto := some contexto_doctores }, s)

/-- Response of an HTTP endpoint that returns a JSON payload. -/
structure RootResponse where
  status_code : ℕ
  mensaje : String
  deriving DecidableEq, Repr

/-- Lines 134-136, `read_root`: returns its payload normally, which the
framework serves with status 200. -/
def read_root : RootResponse :=
  { status_code := 200
    mensaje := "API del Chatbot de Telemedicina funcionando (Modo CSV)" }

/-! ## Helper lemmas -/

/-- Whenever the loaded directory is non-empty, the retrieval expression of
line 102 raises: the right-hand side of the comparison accesses `.str` on a
plain Python string. -/
theorem filtrar_error_of_ne_nil :
    ∀ {df : List DoctorRecord}, df ≠ [] → ∀ esp : String,
      filtrarDoctores df esp =
        .error (.attributeError ("str object has no attribute str"))
  | [], h, _ => absurd rfl h
  | _ :: _, _, _ => rfl

/-! ## Claims -/

/-- Directory used to evaluate the matcher at the failing input of claim
C1: two records whose specialty differs from the label only in case and
surrounding whitespace. -/
def dfCardiologia : List DoctorRecord :=
  [{ nombre_completo := "Dra. Ana", especialidad := "Cardiología", bio_corta := "bio1" },
   { nombre_completo := "Dr. Luis", especialidad := " cardiología ", bio_corta := "bio2" }]

/-- C1: the spec says the matcher selects exactly the records whose
specialty equals the label after trimming and case folding; on this
directory and the label CARDIOLOGÍA the code instead raises
`AttributeError` (the `.str` accessor does not exist on a plain string),
so no record is ever selected. -/
theorem c1_filtrado_lanza_AttributeError :
    filtrarDoctores dfCardiologia "CARDIOLOGÍA" =
      .error (.attributeError ("str object has no attribute str")) := rfl

/-- C2: whenever the loaded directory is non-empty and the first provider
response, trimmed, is not the literal N/A, the retrieval expression raises
`AttributeError`, the handler makes no second provider call, builds no
generation prompt, and returns HTTP 500 with the generic detail message. -/
theorem c2_error_500_generico (s : ServerState) (input : ChatInput)
    (r1 r2 : String) (hdf : s.df_doctores ≠ []) (hr1 : pyStrip r1 ≠ "N/A") :
    filtrarDoctores s.df_doctores (pyStrip r1) =
      .error (.attributeError ("str object has no attribute str")) ∧
    (handle_chat s input r1 r2).1 =
      { result := .httpException 500 detalleErrorGenerico
        aiCalls := 1, lookupInvoked := true, contexto := none } := by
  have hfil := filtrar_error_of_ne_nil hdf (pyStrip r1)
  refine ⟨hfil, ?_⟩
  simp only [handle_chat, if_neg hr1, hfil]

/-- C2 witness at a concrete non-empty directory and a concrete non-N/A
extraction response. -/
theorem c2_error_500_generico_witness :
    ([{ nombre_completo := "Dra. Eva", especialidad := "Neurología", bio_corta := "b" }] :
        List DoctorRecord) ≠ [] ∧
    pyStrip " Neurología " ≠ "N/A" ∧
    (handle_chat { df_doctores := [{ nombre_completo := "Dra. Eva", especialidad := "Neurología", bio_corta := "b" }] }
        { user_id := "u7", mensaje := "me duele la cabeza" } " Neurología " "resp").1 =
      { result := .httpException 500 detalleErrorGenerico
        aiCalls := 1, lookupInvoked := true, contexto := none } :=
  ⟨by decide, by decide,
    (c2_error_500_generico
      { df_doctores := [{ nombre_completo := "Dra. Eva", especialidad := "Neurología", bio_corta := "b" }] }
      { user_id := "u7", mensaje := "me duele la cabeza" } " Neurología " "resp"
      (by decide) (by decide)).2⟩

/-- C3: when the trimmed extraction text equals the sentinel N/A, the
handler returns the fixed non-medical reply with exactly one provider call
made, the retrieval block never evaluated, and no generation prompt
built. -/
theorem c3_corto_circuito_no_medico (s : ServerState) (input : ChatInput)
    (r1 r2 : String) (h : pyStrip r1 = "N/A") :
    (handle_chat s input r1 r2).1 =
      { result := .success { respuesta_bot := respuestaNoMedica }
        aiCalls := 1, lookupInvoked := false, contexto := none } := by
  simp only [handle_chat, if_pos h]

/-- C3 witness: an extraction response that trims to N/A short-circuits a
concrete request over a non-empty directory. -/
theorem c3_corto_circuito_no_medico_witness :
    pyStrip "  N/A " = "N/A" ∧
    (handle_chat { df_doctores := [{ nombre_completo := "Dr. Gil", especialidad := "Pediatría", bio_corta := "c" }] }
        { user_id := "u3", mensaje := "hola bot" } "  N/A " "resp").1 =
      { result := .success { respuesta_bot := respuestaNoMedica }
        aiCalls := 1, lookupInvoked := false, contexto := none } :=
  ⟨by decide,
    c3_corto_circuito_no_medico
      { df_doctores := [{ nombre_completo := "Dr. Gil", especialidad := "Pediatría", bio_corta := "c" }] }
      { user_id := "u3", mensaje := "hola bot" } "  N/A " "resp" (by decide)⟩

/-- C4 counterexample: the claim says every provider call is configured
with content-safety filtering at the most permissive threshold across all
harm categories; the module-level model of line 37 is constructed with no
`safety_settings` argument at all, so the property fails. -/
theorem c4_sin_safety_settings : ¬ mostPermissiveSafety model := by
  intro h
  have hm := h ("HARM_CATEGORY_HARASSMENT") (by simp [harmCategories])
  simp [model] at hm

/-- C4 amended: the single model used for both provider calls carries the
fixed decoding parameters and the 2048-output-token ceiling, and an empty
safety-settings list (provider defaults apply). -/
theorem c4_config_decodificacion :
    model.generation_config =
      { temperature := 7/10, top_p := 1, top_k := 1, max_output_tokens := 2048 } ∧
    model.generation_config.max_output_tokens = 2048 ∧
    model.safety_settings = [] :=
  ⟨rfl, rfl, rfl⟩

/-- C5 counterexample: on a request whose retrieval step raises, the 500
detail is the fixed generic message of line 131, which is not the string
form of the raised exception. -/
theorem c5_detalle_no_es_excepcion :
    (handle_chat { df_doctores := [{ nombre_completo := "Dr. Sol", especialidad := "Dermatología", bio_corta := "d" }] }
        { user_id := "u5", mensaje := "tengo una mancha" } "Dermatología" "resp").1.result =
      .httpException 500 detalleErrorGenerico ∧
    detalleErrorGenerico ≠
      PyError.message (.attributeError ("str object has no attribute str")) :=
  ⟨rfl, by decide⟩

/-- C5 amended: every exception reaching the endpoint boundary is caught
and surfaced as HTTP 500 whose detail is the fixed generic message,
independent of which exception was raised. -/
theorem c5_excepcion_atrapada_generica (s : ServerState) (input : ChatInput)
    (r1 r2 : String) (e : PyError) (hr1 : pyStrip r1 ≠ "N/A")
    (hfil : filtrarDoctores s.df_doctores (pyStrip r1) = .error e) :
    (handle_chat s input r1 r2).1.result =
      .httpException 500 detalleErrorGenerico := by
  simp only [handle_chat, if_neg hr1, hfil]

/-- C5 amended witness at a concrete request whose retrieval raises. -/
theorem c5_excepcion_atrapada_generica_witness :
    pyStrip "Oncología" ≠ "N/A" ∧
    filtrarDoctores
        [{ nombre_completo := "Dra. Paz", especialidad := "Oncología", bio_corta := "e" }]
        (pyStrip "Oncología") =
      .error (.attributeError ("str object has no attribute str")) ∧
    (handle_chat { df_doctores := [{ nombre_completo := "Dra. Paz", especialidad := "Oncología", bio_corta := "e" }] }
        { user_id := "u6", mensaje := "consulta" } "Oncología" "resp").1.result =
      .httpException 500 detalleErrorGenerico :=
  ⟨by decide, rfl,
    c5_excepcion_atrapada_generica
      { df_doctores := [{ nombre_completo := "Dra. Paz", especialidad := "Oncología", bio_corta := "e" }] }
      { user_id := "u6", mensaje := "consulta" } "Oncología" "resp"
      (.attributeError ("str object has no attribute str")) (by decide) rfl⟩

/-- C6 counterexample: a request body carrying only the message text is
rejected, because `user_id` has no default and is required. -/
theorem c6_solo_mensaje_rechazado :
    ChatInput.validate none (some "me duele la cabeza") =
      .error ("field required: user_id") := rfl

/-- C6 amended: the request body model requires exactly the two declared
fields, user identifier and message text, with no defaults and no
prior-medical-context field; a body is accepted precisely when both are
supplied. -/
theorem c6_ambos_campos_requeridos (u m : Option String) :
    (∃ c, ChatInput.validate u m = .ok c) ↔ u.isSome ∧ m.isSome := by
  cases u <;> cases m <;> simp [ChatInput.validate]

/-- C7: on an empty directory the matcher yields the empty list for every
label, and whenever the generation prompt is built its embedded directory
text is the non-empty sentinel, never the empty string. -/
theorem c7_directorio_vacio (label : String) (input : ChatInput)
    (r1 r2 : String) :
    filtrarDoctores [] label = .ok [] ∧
    (pyStrip r1 ≠ "N/A" →
      (handle_chat { df_doctores := [] } input r1 r2).1.contexto =
        some sinDoctoresTexto ∧
      sinDoctoresTexto ≠ "") := by
  refine ⟨rfl, fun hr1 => ⟨?_, by decide⟩⟩
  simp only [handle_chat, if_neg hr1]
  rfl

/-- C7 witness on a concrete label and request. -/
theorem c7_directorio_vacio_witness :
    pyStrip "Geriatría" ≠ "N/A" ∧
    filtrarDoctores [] "Geriatría" = .ok [] ∧
    (handle_chat { df_doctores := [] }
        { user_id := "u2", mensaje := "consulta mayor" } "Geriatría" "resp").1.contexto =
      some sinDoctoresTexto ∧
    sinDoctoresTexto ≠ "" := by
  have h := c7_directorio_vacio "Geriatría"
    { user_id := "u2", mensaje := "consulta mayor" } "Geriatría" "resp"
  exact ⟨by decide, h.1, (h.2 (by decide)).1, (h.2 (by decide)).2⟩

/-- C8: every record list the matcher actually returns has length at most
3 (non-empty directories make the matcher raise instead of return, see
C2). -/
theorem c8_maximo_tres (df : List DoctorRecord) (label : String)
    (l : List DoctorRecord) (h : filtrarDoctores df label = .ok l) :
    l.length ≤ 3 := by
  cases df with
  | nil =>
    simp only [filtrarDoctores, List.isEmpty_nil, if_true, Except.ok.injEq] at h
    subst h
    simp
  | cons d t =>
    rw [filtrar_error_of_ne_nil (List.cons_ne_nil d t) label] at h
    exact absurd h (by simp)

/-- C8 witness at the empty directory. -/
theorem c8_maximo_tres_witness :
    filtrarDoctores [] "Urología" = .ok [] ∧
    ([] : List DoctorRecord).length ≤ 3 :=
  ⟨rfl, c8_maximo_tres [] "Urología" [] rfl⟩

/-- C9: when the startup CSV read fails with any exception, the service
substitutes the empty record set instead of crashing, and the root
endpoint still answers 200. -/
theorem c9_inicio_sin_archivo (e : PyError) :
    df_doctores_startup (.error e) = [] ∧ read_root.status_code = 200 :=
  ⟨rfl, rfl⟩

/-- C10: handling any `/chat` request, on the short-circuit path, the
success path, or the exception path, leaves the process-wide doctor
snapshot unchanged. -/
theorem c10_snapshot_inmutable (s : ServerState) (input : ChatInput)
    (r1 r2 : String) :
    (handle_chat s input r1 r2).2.df_doctores = s.df_doctores := by
  by_cases h : pyStrip r1 = "N/A"
  · simp [handle_chat, if_pos h]
  · cases hfe : filtrarDoctores s.df_doctores (pyStrip r1) with
    | error e => simp [handle_chat, if_neg h, hfe]
    | ok l => simp [handle_chat, if_neg h, hfe]

end Telemedicina
